import Mathlib

/-!
Verification of the `build_routine` recommendation pipeline of the
skincare-engine application (`src/app.py`).

The catalog is a pandas DataFrame loaded from a CSV; we model it as a
`List Row`, where every textual column that may be missing (NaN) is an
`Option String`.  `row.get(col, '')` becomes `getS`, pandas
`Series.str.contains(pat, na := b)` becomes explicit substring tests on
`Option String`, and `.sample(1)` becomes an index supplied by a
randomness oracle (`Rng`), reduced modulo the length of the sampled list,
so that theorems quantify over every possible random draw.
-/

namespace Skincare

/-- A catalog row (one product of `products.csv`), with the columns that
`app.py` reads.  `product_id` is the key used for de-duplication. -/
structure Row where
  product_id : String
  name : Option String
  step : Option String
  suitable_skin_types : Option String
  safe_for_sensitive : Option String
  contains_retinol : Option String
  contains_acid : Option String
  prescripition_only : Option String
  key_actives : Option String
  product_type : Option String
  primary_target : Option String
  secondary_target : Option String
deriving DecidableEq, Repr

/-- `row.get(col, '')`: a missing (NaN) cell reads as the empty string. -/
def getS (o : Option String) : String := o.getD ""

/-- `pat` is a prefix of `s`, on character lists. -/
def charsStart : List Char → List Char → Bool
  | [], _ => true
  | _ :: _, [] => false
  | a :: as, b :: bs => a == b && charsStart as bs

/-- `pat` occurs as a contiguous substring of `s`, on character lists. -/
def charsInfix : List Char → List Char → Bool
  | pat, [] => pat.isEmpty
  | pat, c :: t => charsStart pat (c :: t) || charsInfix pat t

/-- `str.lower()`, character by character. -/
def lowerStr (s : String) : List Char := s.toList.map Char.toLower

/-- `df['name'].str.lower().str.contains('p1|p2|...', na=False)`: a missing
name never matches; the name is lowercased, the patterns are literal. -/
def nameHasAny (name : Option String) (pats : List String) : Bool :=
  match name with
  | none => false
  | some n => pats.any (fun p => charsInfix p.toList (lowerStr n))

/-- `series.str.contains(pat, case=False, na=True)`: a missing cell counts
as a match, comparison is case-insensitive. -/
def containsNaTrue (v : Option String) (pat : String) : Bool :=
  match v with
  | none => true
  | some s => charsInfix (lowerStr pat) (lowerStr s)

/-- `series.str.contains('p1|p2|...', case=False, na=False)`: a missing
cell never matches, comparison is case-insensitive. -/
def activesHasAny (v : Option String) (pats : List String) : Bool :=
  match v with
  | none => false
  | some s => pats.any (fun p => charsInfix (lowerStr p) (lowerStr s))

/-- The concern-to-keyword-set table `CONCERN_MAPPING` of `app.py`. -/
def CONCERN_MAPPING : List (String × List String) :=
  [("acne", ["acne", "pimple", "breakout", "blemish", "pore"]),
   ("dark spots / uneven tone",
      ["dark spot", "hyperpigmentation", "melasma", "uneven tone", "pigment"]),
   ("dryness", ["dryness", "dehydrated", "tight"]),
   ("texture / rough skin", ["texture", "rough", "bumpy"]),
   ("aging", ["aging", "wrinkle", "fine line", "firm"]),
   ("sensitivity", ["sensitive", "irritated", "react", "sting"]),
   ("dull", ["dull", "lack glow"]),
   ("barrier damage", ["barrier", "damaged", "weak"])]

/-- `is_safe(row, is_sensitive, is_pregnant, using_prescription)` of
`app.py` (note the source's field name `prescripition_only`). -/
def is_safe (row : Row) (is_sensitive is_pregnant using_prescription : Bool) : Bool :=
  if is_pregnant &&
      (getS row.contains_retinol == "Yes" || getS row.prescripition_only == "Yes") then
    false
  else if is_sensitive && getS row.safe_for_sensitive != "Yes" then
    false
  else if using_prescription &&
      (getS row.contains_retinol == "Yes" || getS row.contains_acid == "Yes") then
    false
  else
    true

/-- The name patterns excluded from Face routines. -/
def bodyWords : List String := ["body wash", "scrub", "shower gel", "body oil gel"]

/-- The area filter of `build_routine`: Face drops body-product names,
Body keeps only names containing "body", any other area keeps all. -/
def areaFilter (area : String) (df : List Row) : List Row :=
  if area == "Face" then df.filter (fun r => !(nameHasAny r.name bodyWords))
  else if area == "Body" then df.filter (fun r => nameHasAny r.name ["body"])
  else df

/-- The skin-type filter of `build_routine`: keep rows whose
`suitable_skin_types` contains "All" or the user's skin type
(case-insensitive; a missing cell passes). -/
def skinTypeFilter (skin_type : String) (df : List Row) : List Row :=
  df.filter (fun r =>
    containsNaTrue r.suitable_skin_types "All" ||
    containsNaTrue r.suitable_skin_types skin_type)

/-- The sensitive-skin fallback of `build_routine`: from the ORIGINAL
catalog, rows with `safe_for_sensitive == 'Yes'` (exact comparison) whose
`suitable_skin_types` contains "All". -/
def relaxFilter (df : List Row) : List Row :=
  df.filter (fun r =>
    r.safe_for_sensitive == some "Yes" && containsNaTrue r.suitable_skin_types "All")

/-- The candidate set before the sensitive fallback: area filter, then
safety filter, then skin-type filter (lines 44-58 of `app.py`). -/
def baseCandidates (df : List Row) (skin_type : String)
    (is_sensitive is_pregnant using_prescription : Bool) (area : String) : List Row :=
  skinTypeFilter skin_type
    ((areaFilter area df).filter
      (fun r => is_safe r is_sensitive is_pregnant using_prescription))

/-- The candidate set `filtered` as it stands at line 68 of `app.py`:
the base pipeline, replaced by the relaxed set when it came out empty for
a sensitive user. -/
def candidates (df : List Row) (skin_type : String)
    (is_sensitive is_pregnant using_prescription : Bool) (area : String) : List Row :=
  if (baseCandidates df skin_type is_sensitive is_pregnant using_prescription area).isEmpty
      && is_sensitive then
    relaxFilter df
  else
    baseCandidates df skin_type is_sensitive is_pregnant using_prescription area

/-- `pool.sample(1).iloc[0]`: the randomness oracle supplies an index,
taken modulo the pool size; `none` exactly when the pool is empty. -/
def pick (l : List Row) (n : Nat) : Option Row := l[n % l.length]?

/-- One rendered routine stage: either a sampled catalog product or a
generic advice sentence. -/
inductive StepChoice where
  | product : Row → StepChoice
  | advice : String → StepChoice
deriving DecidableEq, Repr

/-- The random indices consumed by the four sampling sites of
`build_routine` (steps 1-4). -/
structure Rng where
  r1 : Nat
  r2 : Nat
  r3 : Nat
  r4 : Nat
deriving DecidableEq, Repr

/-- The local `cleansers` of `build_routine`. -/
def cleansersOf (filtered : List Row) : List Row :=
  filtered.filter (fun r => r.step == some "1. Cleanse")

/-- Step 1 (Cleanse) of `build_routine`: sample a cleanser from the
candidates, or fall back to generic advice. -/
def cleanseChoice (filtered : List Row) (n : Nat) : StepChoice :=
  match pick (cleansersOf filtered) n with
  | some chosen => .product chosen
  | none => .advice "Gentle cream or gel cleanser (no foaming agents)."

/-- The local `toners` of `build_routine`. -/
def tonersOf (filtered : List Row) : List Row :=
  filtered.filter (fun r => r.step == some "2. Tone/Exfoliate")

/-- The local `gentle` of `build_routine`: toners with
`contains_acid != 'Yes'`. -/
def gentleOf (filtered : List Row) : List Row :=
  (tonersOf filtered).filter (fun r => getS r.contains_acid != "Yes")

/-- The pool `gentle if not gentle.empty else toners` the Tone step
samples from. -/
def tonePoolOf (filtered : List Row) : List Row :=
  if (gentleOf filtered).isEmpty then tonersOf filtered else gentleOf filtered

/-- Step 2 (Tone/Exfoliate) of `build_routine`: prefer acid-free toners,
falling back to all candidate toners, then to generic advice. -/
def toneChoice (filtered : List Row) (n : Nat) : StepChoice :=
  match pick (tonePoolOf filtered) n with
  | some chosen => .product chosen
  | none => .advice "Hydrating, alcohol-free toner (ceramides or centella)."

/-- The hard-coded `key_actives` patterns of the pigmentation branch of
the Treat step. -/
def brightKeywords : List String :=
  ["arbutin", "tranexamic", "niacinamide", "kojic", "vitamin c"]

/-- The hard-coded `key_actives` patterns of the acne branch of the
Treat step. -/
def acneKeywords : List String := ["niacinamide", "salicylic"]

/-- The local `treats` of `build_routine`. -/
def treatsOf (filtered : List Row) : List Row :=
  filtered.filter (fun r => r.step == some "3. Treat")

/-- The local `bright` of the Treat step. -/
def brightOf (filtered : List Row) : List Row :=
  (treatsOf filtered).filter (fun r => activesHasAny r.key_actives brightKeywords)

/-- The local `acne_treat` of the Treat step. -/
def acneTreatOf (filtered : List Row) : List Row :=
  (treatsOf filtered).filter (fun r => activesHasAny r.key_actives acneKeywords)

/-- The pool the Treat step samples from, after its concern branch. -/
def treatPoolOf (filtered : List Row) (concerns : List String) : List Row :=
  if concerns.contains "dark spots / uneven tone" then
    if (brightOf filtered).isEmpty then treatsOf filtered else brightOf filtered
  else if concerns.contains "acne" then
    if (acneTreatOf filtered).isEmpty then treatsOf filtered else acneTreatOf filtered
  else treatsOf filtered

/-- Step 3 (Treat) of `build_routine`: for the pigmentation or acne
concern, prefer treatments whose `key_actives` match the hard-coded
patterns; otherwise sample any candidate treatment; generic advice when
there is none. -/
def treatChoice (filtered : List Row) (concerns : List String) (n : Nat) : StepChoice :=
  match pick (treatPoolOf filtered concerns) n with
  | some chosen => .product chosen
  | none =>
    .advice (if concerns.contains "dark spots / uneven tone" then
        "Niacinamide or tranexamic acid serum for pigmentation."
      else
        "Consider a hydrating serum.")

/-- The hard-coded `product_type` patterns of the oily-skin branch of the
Moisturize step. -/
def lightKeywords : List String := ["gel", "emulsion", "light"]

/-- The local `moist` of `build_routine`. -/
def moistOf (filtered : List Row) : List Row :=
  filtered.filter (fun r => r.step == some "4. Moisturize")

/-- The local `light` of the Moisturize step. -/
def lightOf (filtered : List Row) : List Row :=
  (moistOf filtered).filter (fun r => activesHasAny r.product_type lightKeywords)

/-- The pool the Moisturize step samples from, after its skin-type
branch. -/
def moistPoolOf (filtered : List Row) (skin_type : String) : List Row :=
  if skin_type == "Oily" then
    if (lightOf filtered).isEmpty then moistOf filtered else lightOf filtered
  else moistOf filtered

/-- Step 4 (Moisturize) of `build_routine`: for oily skin prefer light
textures, otherwise sample any candidate moisturizer; skin-type-dependent
advice when there is none. -/
def moistChoice (filtered : List Row) (skin_type : String) (n : Nat) : StepChoice :=
  match pick (moistPoolOf filtered skin_type) n with
  | some chosen => .product chosen
  | none =>
    .advice (if skin_type == "Dry" then
        "Rich cream with ceramides or hyaluronic acid."
      else
        "Lightweight gel or lotion moisturizer.")

/-- The fixed Protect-stage sentence, rendered unconditionally. -/
def protectAdvice : String :=
  "Broad-spectrum SPF 50+ every morning (mineral-based is gentler for sensitive skin)."

/-- The product, if any, appended to `recommended_products` by a stage. -/
def recOf : StepChoice → List Row
  | .product r => [r]
  | .advice _ => []

/-- The `recommended_products` list, in the order the four
product-bearing stages append to it. -/
def recommendedOf (filtered : List Row) (skin_type : String) (concerns : List String)
    (rng : Rng) : List Row :=
  recOf (cleanseChoice filtered rng.r1) ++ recOf (toneChoice filtered rng.r2) ++
  recOf (treatChoice filtered concerns rng.r3) ++ recOf (moistChoice filtered skin_type rng.r4)

/-- The seen-set loop of lines 142-148 of `app.py`, generalized over the
set of already-seen product ids. -/
def dedupAux (seen : List String) : List Row → List Row
  | [] => []
  | p :: rest =>
    if seen.contains p.product_id then dedupAux seen rest
    else p :: dedupAux (p.product_id :: seen) rest

/-- The de-duplication of `recommended_products` by `product_id`
("Remove duplicates" block of `app.py`). -/
def removeDuplicates (l : List Row) : List Row := dedupAux [] l

/-- The five-stage routine rendered by a successful `build_routine` run,
fields in rendering order; `recommended` and `unique` are the product
grids before and after de-duplication. -/
structure Routine where
  cleanse : StepChoice
  tone : StepChoice
  treat : StepChoice
  moisturize : StepChoice
  protect : String
  recommended : List Row
  unique : List Row
deriving DecidableEq, Repr

/-- `build_routine(df, skin_type, concerns, is_sensitive, is_pregnant,
using_prescription, area)`: `none` is the early return with the
no-matches warning, `some` the rendered routine. -/
def buildRoutine (df : List Row) (skin_type : String) (concerns : List String)
    (is_sensitive is_pregnant using_prescription : Bool) (area : String)
    (rng : Rng) : Option Routine :=
  let filtered := candidates df skin_type is_sensitive is_pregnant using_prescription area
  if filtered.isEmpty then none
  else
    some ⟨cleanseChoice filtered rng.r1,
          toneChoice filtered rng.r2,
          treatChoice filtered concerns rng.r3,
          moistChoice filtered skin_type rng.r4,
          protectAdvice,
          recommendedOf filtered skin_type concerns rng,
          removeDuplicates (recommendedOf filtered skin_type concerns rng)⟩

/-- The `concerns_map` dictionary of the submitted handler. -/
def concerns_map : List (String × String) :=
  [("Acne / breakouts", "acne"),
   ("Dark spots / hyperpigmentation / melasma", "dark spots / uneven tone"),
   ("Dryness / dehydration", "dryness"),
   ("Dull skin", "dull"),
   ("Uneven texture / rough skin", "texture / rough skin"),
   ("Aging / fine lines", "aging"),
   ("Sensitivity / irritation", "sensitivity"),
   ("Damaged barrier", "barrier damage")]

/-- `[concerns_map.get(c, '') for c in selected_concerns if c in
concerns_map]`. -/
def mapConcerns (selected : List String) : List String :=
  (selected.filter (fun c => (concerns_map.find? (fun p => p.1 == c)).isSome)).map
    (fun c => getS ((concerns_map.find? (fun p => p.1 == c)).map Prod.snd))

/-- What the submitted handler does: one of the two warnings, or a call
to `build_routine`. -/
inductive Action where
  | warnDoctor : Action
  | warnMultiple : Action
  | runBuild : List String → Action
deriving DecidableEq, Repr

/-- The `if submitted:` handler of `app.py` (lines 221-240): pregnancy or
prescription use warns, sensitivity with more than two mapped concerns
warns, otherwise `build_routine` runs on the mapped concerns. -/
def submittedAction (selected : List String)
    (sensitive pregnant prescription : Bool) : Action :=
  let concerns := mapConcerns selected
  if pregnant || prescription then .warnDoctor
  else if sensitive && decide (concerns.length > 2) then .warnMultiple
  else .runBuild concerns

/-- Modelled from the spec: the textual metadata of a product that
concern keywords could be matched against. -/
def rowMetadata (r : Row) : List (Option String) :=
  [r.name, r.key_actives, r.product_type, r.primary_target, r.secondary_target,
   r.suitable_skin_types]

/-- Modelled from the spec: some keyword of `CONCERN_MAPPING` for the
concern `c` occurs (case-insensitively) in some metadata field of `r`. -/
def concernKeywordMatches (r : Row) (c : String) : Bool :=
  match CONCERN_MAPPING.find? (fun p => p.1 == c) with
  | none => false
  | some pr => (rowMetadata r).any (fun f => activesHasAny f pr.2)

/-- Modelled from the spec: the concern-keyword matching filter the spec
describes as the fourth stage of the candidate pipeline — keep the
products matching some selected concern (no filtering when no concern is
selected). -/
def concernFilterSpec (concerns : List String) (df : List Row) : List Row :=
  if concerns.isEmpty then df
  else df.filter (fun r => concerns.any (fun c => concernKeywordMatches r c))

/-- Modelled from the spec: the candidate set as the spec claims it is
computed — area filter, safety filter, skin-type filter, then the
concern-keyword matching filter. -/
def candidatesSpec (df : List Row) (skin_type : String) (concerns : List String)
    (is_sensitive is_pregnant using_prescription : Bool) (area : String) : List Row :=
  concernFilterSpec concerns
    (baseCandidates df skin_type is_sensitive is_pregnant using_prescription area)

/-! ### Concrete inputs used by counterexamples and witnesses -/

/-- A face cleanser suitable for everyone whose metadata contains no
keyword of the `dryness` concern. -/
def exR : Row :=
  ⟨"P1", some "Plain Gel Cleanser", some "1. Cleanse", some "All", some "Yes",
   none, none, none, some "ceramide", some "gel", some "general care", none⟩

/-- A one-product catalog. -/
def exDf : List Row := [exR]

/-- A fixed draw for the randomness oracle. -/
def exRng : Rng := ⟨0, 0, 0, 0⟩

/-- The routine `buildRoutine` produces on `exDf` for an oily-skinned
user with the `dryness` concern shopping for Face. -/
def exRoutine : Routine :=
  ⟨.product exR,
   .advice "Hydrating, alcohol-free toner (ceramides or centella).",
   .advice "Consider a hydrating serum.",
   .advice "Lightweight gel or lotion moisturizer.",
   protectAdvice, [exR], [exR]⟩

/-- A body-wash product, safe for sensitive skin and suitable for all
skin types, that the Face area filter excludes. -/
def bodyR : Row :=
  ⟨"B1", some "Hydrating Body Wash", some "1. Cleanse", some "All", some "Yes",
   none, none, none, none, none, none, none⟩

/-- A catalog holding only the body wash. -/
def bodyDf : List Row := [bodyR]

/-- A toner containing acid (`contains_acid = 'Yes'`). -/
def tAcid : Row :=
  ⟨"T2", some "BHA Toner", some "2. Tone/Exfoliate", some "All", some "Yes",
   none, some "Yes", none, none, none, none, none⟩

/-- An acid-free toner. -/
def tGentle : Row :=
  ⟨"T1", some "Calming Toner", some "2. Tone/Exfoliate", some "All", some "Yes",
   none, none, none, none, none, none, none⟩

/-- A catalog with one acid toner and one acid-free toner, acid first. -/
def tonerDf : List Row := [tAcid, tGentle]

/-- The routine `buildRoutine` produces on `tonerDf` for a normal-skinned
user with no concern. -/
def tonerRoutine : Routine :=
  ⟨.advice "Gentle cream or gel cleanser (no foaming agents).",
   .product tGentle,
   .advice "Consider a hydrating serum.",
   .advice "Lightweight gel or lotion moisturizer.",
   protectAdvice, [tGentle], [tGentle]⟩

/-- Two distinct rows sharing the product id "A". -/
def dupRow1 : Row :=
  ⟨"A", some "Cleanser A", some "1. Cleanse", some "All", some "Yes",
   none, none, none, none, none, none, none⟩

/-- A row with product id "B". -/
def dupRow2 : Row :=
  ⟨"B", some "Toner B", some "2. Tone/Exfoliate", some "All", some "Yes",
   none, none, none, none, none, none, none⟩

/-- A second row with product id "A" but different fields. -/
def dupRow3 : Row :=
  ⟨"A", some "Serum A", some "3. Treat", some "All", some "Yes",
   none, none, none, none, none, none, none⟩

/-- A recommended-products list with a duplicated product id. -/
def exDupList : List Row := [dupRow1, dupRow2, dupRow3]

/-! ### Helper lemmas -/

theorem pick_mem {l : List Row} {n : Nat} {x : Row} (h : pick l n = some x) : x ∈ l :=
  List.getElem?_mem h

theorem pick_of_ne_nil {l : List Row} (h : l ≠ []) (n : Nat) :
    ∃ x, pick l n = some x ∧ x ∈ l := by
  have hlen : 0 < l.length := List.length_pos.mpr h
  have hlt : n % l.length < l.length := Nat.mod_lt _ hlen
  refine ⟨l[n % l.length], ?_, List.getElem_mem _⟩
  exact List.getElem?_eq_getElem hlt

theorem pick_eq_none {l : List Row} {n : Nat} (h : pick l n = none) : l = [] := by
  by_contra hne
  obtain ⟨x, hx, -⟩ := pick_of_ne_nil hne n
  rw [h] at hx
  exact Option.noConfusion hx

theorem mem_filter_step {filtered : List Row} {s : Option String} {c : Row}
    (h : c ∈ filtered.filter (fun r => r.step == s)) : c ∈ filtered ∧ c.step = s := by
  have := List.mem_filter.mp h
  exact ⟨this.1, eq_of_beq this.2⟩

theorem mem_of_mem_filter' {l : List Row} {p : Row → Bool} {c : Row}
    (h : c ∈ l.filter p) : c ∈ l := (List.mem_filter.mp h).1

theorem tonePoolOf_subset (filtered : List Row) : tonePoolOf filtered ⊆ tonersOf filtered := by
  unfold tonePoolOf
  split
  · exact fun a ha => ha
  · exact fun a ha => mem_of_mem_filter' ha

theorem treatPoolOf_subset (filtered : List Row) (concerns : List String) :
    treatPoolOf filtered concerns ⊆ treatsOf filtered := by
  unfold treatPoolOf
  split
  · split
    · exact fun a ha => ha
    · exact fun a ha => mem_of_mem_filter' ha
  · split
    · split
      · exact fun a ha => ha
      · exact fun a ha => mem_of_mem_filter' ha
    · exact fun a ha => ha

theorem moistPoolOf_subset (filtered : List Row) (skin_type : String) :
    moistPoolOf filtered skin_type ⊆ moistOf filtered := by
  unfold moistPoolOf
  split
  · split
    · exact fun a ha => ha
    · exact fun a ha => mem_of_mem_filter' ha
  · exact fun a ha => ha

/-- The products contributed by the Cleanse stage all lie in the
candidate set and carry the Cleanse step tag. -/
theorem recOf_cleanse {filtered : List Row} {n : Nat} {p : Row}
    (h : p ∈ recOf (cleanseChoice filtered n)) :
    p ∈ filtered ∧ p.step = some "1. Cleanse" := by
  unfold cleanseChoice at h
  rcases hp : pick (cleansersOf filtered) n with _ | c
  · rw [hp] at h; simp [recOf] at h
  · rw [hp] at h
    simp [recOf] at h
    subst h
    exact mem_filter_step (pick_mem hp)

/-- The products contributed by the Tone stage all lie in the candidate
set and carry the Tone/Exfoliate step tag. -/
theorem recOf_tone {filtered : List Row} {n : Nat} {p : Row}
    (h : p ∈ recOf (toneChoice filtered n)) :
    p ∈ filtered ∧ p.step = some "2. Tone/Exfoliate" := by
  unfold toneChoice at h
  rcases hp : pick (tonePoolOf filtered) n with _ | c
  · rw [hp] at h; simp [recOf] at h
  · rw [hp] at h
    simp [recOf] at h
    subst h
    exact mem_filter_step (tonePoolOf_subset filtered (pick_mem hp))

/-- The products contributed by the Treat stage all lie in the candidate
set and carry the Treat step tag. -/
theorem recOf_treat {filtered : List Row} {concerns : List String} {n : Nat} {p : Row}
    (h : p ∈ recOf (treatChoice filtered concerns n)) :
    p ∈ filtered ∧ p.step = some "3. Treat" := by
  unfold treatChoice at h
  rcases hp : pick (treatPoolOf filtered concerns) n with _ | c
  · rw [hp] at h; simp [recOf] at h
  · rw [hp] at h
    simp [recOf] at h
    subst h
    exact mem_filter_step (treatPoolOf_subset filtered concerns (pick_mem hp))

/-- The products contributed by the Moisturize stage all lie in the
candidate set and carry the Moisturize step tag. -/
theorem recOf_moist {filtered : List Row} {skin_type : String} {n : Nat} {p : Row}
    (h : p ∈ recOf (moistChoice filtered skin_type n)) :
    p ∈ filtered ∧ p.step = some "4. Moisturize" := by
  unfold moistChoice at h
  rcases hp : pick (moistPoolOf filtered skin_type) n with _ | c
  · rw [hp] at h; simp [recOf] at h
  · rw [hp] at h
    simp [recOf] at h
    subst h
    exact mem_filter_step (moistPoolOf_subset filtered skin_type (pick_mem hp))

theorem gentleOf_nil {filtered : List Row} (h : tonersOf filtered = []) :
    gentleOf filtered = [] := by
  unfold gentleOf; rw [h]; rfl

theorem brightOf_nil {filtered : List Row} (h : treatsOf filtered = []) :
    brightOf filtered = [] := by
  unfold brightOf; rw [h]; rfl

theorem acneTreatOf_nil {filtered : List Row} (h : treatsOf filtered = []) :
    acneTreatOf filtered = [] := by
  unfold acneTreatOf; rw [h]; rfl

theorem lightOf_nil {filtered : List Row} (h : moistOf filtered = []) :
    lightOf filtered = [] := by
  unfold lightOf; rw [h]; rfl

/-- The Tone sampling pool is empty exactly when there is no candidate
toner at all. -/
theorem tonePoolOf_nil_iff (filtered : List Row) :
    tonePoolOf filtered = [] ↔ tonersOf filtered = [] := by
  unfold tonePoolOf
  by_cases he : (gentleOf filtered).isEmpty
  · simp [he]
  · simp only [he, Bool.false_eq_true, if_false]
    constructor
    · intro h; exact absurd (by simp [h]) he
    · intro h; exact absurd (by simp [gentleOf_nil h]) he

/-- The Treat sampling pool is empty exactly when there is no candidate
treatment at all. -/
theorem treatPoolOf_nil_iff (filtered : List Row) (concerns : List String) :
    treatPoolOf filtered concerns = [] ↔ treatsOf filtered = [] := by
  unfold treatPoolOf
  split
  · by_cases he : (brightOf filtered).isEmpty
    · simp [he]
    · simp only [he, Bool.false_eq_true, if_false]
      constructor
      · intro h; exact absurd (by simp [h]) he
      · intro h; exact absurd (by simp [brightOf_nil h]) he
  · split
    · by_cases he : (acneTreatOf filtered).isEmpty
      · simp [he]
      · simp only [he, Bool.false_eq_true, if_false]
        constructor
        · intro h; exact absurd (by simp [h]) he
        · intro h; exact absurd (by simp [acneTreatOf_nil h]) he
    · exact Iff.rfl

/-- The Moisturize sampling pool is empty exactly when there is no
candidate moisturizer at all. -/
theorem moistPoolOf_nil_iff (filtered : List Row) (skin_type : String) :
    moistPoolOf filtered skin_type = [] ↔ moistOf filtered = [] := by
  unfold moistPoolOf
  split
  · by_cases he : (lightOf filtered).isEmpty
    · simp [he]
    · simp only [he, Bool.false_eq_true, if_false]
      constructor
      · intro h; exact absurd (by simp [h]) he
      · intro h; exact absurd (by simp [lightOf_nil h]) he
  · exact Iff.rfl

theorem pick_product_iff {l : List Row} {n : Nat} {adv : String} :
    (∃ p, (match pick l n with
           | some chosen => StepChoice.product chosen
           | none => StepChoice.advice adv) = StepChoice.product p) ↔ l ≠ [] := by
  rcases hp : pick l n with _ | c
  · simp [pick_eq_none hp]
  · simp
    exact fun h => by simp [h, pick] at hp

/-- The Cleanse stage shows a product exactly when a candidate cleanser
exists. -/
theorem cleanseChoice_product_iff (filtered : List Row) (n : Nat) :
    (∃ p, cleanseChoice filtered n = .product p) ↔ cleansersOf filtered ≠ [] := by
  unfold cleanseChoice
  exact pick_product_iff

/-- The Tone stage shows a product exactly when a candidate toner
exists. -/
theorem toneChoice_product_iff (filtered : List Row) (n : Nat) :
    (∃ p, toneChoice filtered n = .product p) ↔ tonersOf filtered ≠ [] := by
  unfold toneChoice
  rw [pick_product_iff]
  exact not_congr (tonePoolOf_nil_iff filtered)

/-- The Treat stage shows a product exactly when a candidate treatment
exists. -/
theorem treatChoice_product_iff (filtered : List Row) (concerns : List String) (n : Nat) :
    (∃ p, treatChoice filtered concerns n = .product p) ↔ treatsOf filtered ≠ [] := by
  unfold treatChoice
  rw [pick_product_iff]
  exact not_congr (treatPoolOf_nil_iff filtered concerns)

/-- The Moisturize stage shows a product exactly when a candidate
moisturizer exists. -/
theorem moistChoice_product_iff (filtered : List Row) (skin_type : String) (n : Nat) :
    (∃ p, moistChoice filtered skin_type n = .product p) ↔ moistOf filtered ≠ [] := by
  unfold moistChoice
  rw [pick_product_iff]
  exact not_congr (moistPoolOf_nil_iff filtered skin_type)

/-- Every recommended product is a member of the candidate set. -/
theorem recommendedOf_subset {filtered : List Row} {skin_type : String}
    {concerns : List String} {rng : Rng} {p : Row}
    (h : p ∈ recommendedOf filtered skin_type concerns rng) : p ∈ filtered := by
  unfold recommendedOf at h
  rcases List.mem_append.mp h with h1 | h1
  · rcases List.mem_append.mp h1 with h2 | h2
    · rcases List.mem_append.mp h2 with h3 | h3
      · exact (recOf_cleanse h3).1
      · exact (recOf_tone h3).1
    · exact (recOf_treat h2).1
  · exact (recOf_moist h1).1

/-- The seen-set loop only ever drops elements: its output is a sublist
(in order) of its input. -/
theorem dedupAux_sublist (seen : List String) (l : List Row) :
    (dedupAux seen l).Sublist l := by
  induction l generalizing seen with
  | nil => exact List.Sublist.refl []
  | cons a rest ih =>
    unfold dedupAux
    by_cases hs : seen.contains a.product_id
    · simp only [hs, if_true]
      exact (ih seen).cons a
    · simp only [hs, Bool.false_eq_true, if_false]
      exact (ih (a.product_id :: seen)).cons₂ a

/-- No element surviving the seen-set loop has an id that was already
seen. -/
theorem dedupAux_not_seen {seen : List String} {l : List Row} {r : Row}
    (h : r ∈ dedupAux seen l) : seen.contains r.product_id = false := by
  induction l generalizing seen with
  | nil => cases h
  | cons a rest ih =>
    unfold dedupAux at h
    by_cases hs : seen.contains a.product_id
    · rw [if_pos hs] at h
      exact ih h
    · rw [if_neg hs] at h
      rcases List.mem_cons.mp h with h1 | h1
      · subst h1; simpa using hs
      · have := ih h1
        simp only [List.contains_cons, Bool.or_eq_false_iff] at this
        exact this.2

/-- The ids of the output of the seen-set loop are pairwise distinct. -/
theorem dedupAux_map_nodup (seen : List String) (l : List Row) :
    ((dedupAux seen l).map (fun r => r.product_id)).Nodup := by
  induction l generalizing seen with
  | nil => exact List.nodup_nil
  | cons a rest ih =>
    unfold dedupAux
    by_cases hs : seen.contains a.product_id
    · simp only [hs, if_true]
      exact ih seen
    · simp only [hs, Bool.false_eq_true, if_false, List.map_cons, List.nodup_cons]
      refine ⟨?_, ih (a.product_id :: seen)⟩
      intro hmem
      obtain ⟨x, hx, hxid⟩ := List.mem_map.mp hmem
      have := dedupAux_not_seen hx
      rw [hxid] at this
      simp at this

/-- For every id occurring in the input, the element the seen-set loop
keeps is exactly the FIRST input element bearing that id. -/
theorem dedupAux_keeps_first {seen : List String} {l : List Row} {q : String}
    (hq : seen.contains q = false) (hex : ∃ r ∈ l, r.product_id = q) :
    ∃ r', l.find? (fun x => x.product_id == q) = some r' ∧ r' ∈ dedupAux seen l := by
  induction l generalizing seen with
  | nil =>
    obtain ⟨r, hr, -⟩ := hex
    cases hr
  | cons a rest ih =>
    by_cases ha : a.product_id = q
    · refine ⟨a, ?_, ?_⟩
      · exact List.find?_cons_of_pos rest (by simp [ha])
      · have hsa : seen.contains a.product_id = false := by rw [ha]; exact hq
        unfold dedupAux
        rw [if_neg (by rw [hsa]; simp)]
        exact List.mem_cons_self a _
    · obtain ⟨r, hr, hrq⟩ := hex
      have hrrest : r ∈ rest := by
        rcases List.mem_cons.mp hr with h1 | h1
        · subst h1; exact absurd hrq ha
        · exact h1
      have hfind : (a :: rest).find? (fun x => x.product_id == q) =
          rest.find? (fun x => x.product_id == q) := by
        exact List.find?_cons_of_neg rest (by simp [ha])
      unfold dedupAux
      by_cases hs : seen.contains a.product_id
      · obtain ⟨r', h1, h2⟩ := ih hq ⟨r, hrrest, hrq⟩
        exact ⟨r', by rw [hfind]; exact h1, by rw [if_pos hs]; exact h2⟩
      · have hq' : (a.product_id :: seen).contains q = false := by
          simp only [List.contains_cons, Bool.or_eq_false_iff]
          refine ⟨?_, hq⟩
          simp [Ne.symm ha]
        obtain ⟨r', h1, h2⟩ := ih hq' ⟨r, hrrest, hrq⟩
        refine ⟨r', by rw [hfind]; exact h1, ?_⟩
        rw [if_neg hs]
        exact List.mem_cons_of_mem a h2

/-- Unfolding of a successful `buildRoutine` run. -/
theorem buildRoutine_some_iff {df : List Row} {skin_type : String} {concerns : List String}
    {sens preg presc : Bool} {area : String} {rng : Rng} {r : Routine} :
    buildRoutine df skin_type concerns sens preg presc area rng = some r ↔
      candidates df skin_type sens preg presc area ≠ [] ∧
      r = ⟨cleanseChoice (candidates df skin_type sens preg presc area) rng.r1,
           toneChoice (candidates df skin_type sens preg presc area) rng.r2,
           treatChoice (candidates df skin_type sens preg presc area) concerns rng.r3,
           moistChoice (candidates df skin_type sens preg presc area) skin_type rng.r4,
           protectAdvice,
           recommendedOf (candidates df skin_type sens preg presc area) skin_type concerns rng,
           removeDuplicates
             (recommendedOf (candidates df skin_type sens preg presc area) skin_type concerns rng)⟩ := by
  unfold buildRoutine
  by_cases he : (candidates df skin_type sens preg presc area).isEmpty
  · simp [he, List.isEmpty_iff.mp he]
  · simp only [he, Bool.false_eq_true, if_false]
    constructor
    · intro h
      refine ⟨fun hnil => he (by simp [hnil]), ?_⟩
      exact (Option.some_injective _ h).symm
    · rintro ⟨-, h2⟩
      rw [h2]

/-! ### Claim theorems -/

/-- C3: the safety filter excludes exactly the unsuitable rows: with
`is_pregnant`, rows whose `contains_retinol` or prescription-only column
reads `'Yes'`; with `is_sensitive`, rows whose `safe_for_sensitive` does
not read `'Yes'`; with `using_prescription`, rows whose
`contains_retinol` or `contains_acid` reads `'Yes'`; every other row is
kept. -/
theorem C3_safety_filter_exact (row : Row) (sens preg presc : Bool) :
    is_safe row sens preg presc = false ↔
      (preg = true ∧ (getS row.contains_retinol = "Yes" ∨ getS row.prescripition_only = "Yes")) ∨
      (sens = true ∧ getS row.safe_for_sensitive ≠ "Yes") ∨
      (presc = true ∧ (getS row.contains_retinol = "Yes" ∨ getS row.contains_acid = "Yes")) := by
  unfold is_safe
  split_ifs with h1 h2 h3 <;> simp_all

/-- C4: `build_routine` fails (no-matches warning, early return with no
products) exactly when the candidate set, the sensitive-skin relaxation
included, is empty; in every other case it renders a routine. -/
theorem C4_failure_iff_empty (df : List Row) (skin : String) (concerns : List String)
    (sens preg presc : Bool) (area : String) (rng : Rng) :
    buildRoutine df skin concerns sens preg presc area rng = none ↔
      candidates df skin sens preg presc area = [] := by
  unfold buildRoutine
  by_cases he : (candidates df skin sens preg presc area).isEmpty
  · simp [he, List.isEmpty_iff.mp he]
  · simp only [he, Bool.false_eq_true, if_false]
    constructor
    · intro h; exact Option.noConfusion h
    · intro h; exact absurd (by simp [h]) he

/-- C7: de-duplication leaves each `product_id` at most once, keeps for
each id the first occurrence of the input list (`find?` returns the first
match), and preserves the relative order of what it keeps (the output is
a sublist of the input). -/
theorem C7_dedup_first_occurrence (l : List Row) :
    ((removeDuplicates l).map (fun r => r.product_id)).Nodup ∧
    (removeDuplicates l).Sublist l ∧
    (∀ r ∈ l, ∃ r', l.find? (fun x => x.product_id == r.product_id) = some r' ∧
      r' ∈ removeDuplicates l) := by
  refine ⟨dedupAux_map_nodup [] l, dedupAux_sublist [] l, ?_⟩
  intro r hr
  exact dedupAux_keeps_first rfl ⟨r, hr, rfl⟩

/-- Witness for C7 on a list with a duplicated id. -/
theorem C7_dedup_first_occurrence_witness :
    ((removeDuplicates exDupList).map (fun r => r.product_id)).Nodup ∧
    (removeDuplicates exDupList).Sublist exDupList ∧
    (∃ r', exDupList.find? (fun x => x.product_id == dupRow3.product_id) = some r' ∧
      r' ∈ removeDuplicates exDupList) :=
  ⟨(C7_dedup_first_occurrence exDupList).1,
   (C7_dedup_first_occurrence exDupList).2.1,
   (C7_dedup_first_occurrence exDupList).2.2 dupRow3 (by decide)⟩

/-- C8: the submitted handler reaches `build_routine` exactly when the
pregnancy and prescription flags are off and it is not the case that the
sensitivity flag is on with more than two mapped concerns; in every other
case it stops at one of the two warnings. -/
theorem C8_handler_gate (selected : List String) (sensitive pregnant prescription : Bool) :
    (submittedAction selected sensitive pregnant prescription =
        Action.runBuild (mapConcerns selected) ↔
      pregnant = false ∧ prescription = false ∧
        ¬(sensitive = true ∧ 2 < (mapConcerns selected).length)) ∧
    (submittedAction selected sensitive pregnant prescription = Action.warnDoctor ∨
     submittedAction selected sensitive pregnant prescription = Action.warnMultiple ∨
     submittedAction selected sensitive pregnant prescription =
       Action.runBuild (mapConcerns selected)) := by
  unfold submittedAction
  cases pregnant <;> cases prescription <;> cases sensitive <;>
    by_cases hlen : 2 < (mapConcerns selected).length <;> simp_all

theorem nodup_of_length_le_one {l : List (Option String)} (h : l.length ≤ 1) : l.Nodup := by
  match l with
  | [] => exact List.nodup_nil
  | [a] => exact List.nodup_singleton a
  | a :: b :: t => simp at h

theorem recOf_length_le_one (c : StepChoice) : (recOf c).length ≤ 1 := by
  cases c <;> simp [recOf]

theorem map_step_const {l : List Row} {s : Option String}
    (hl : ∀ p ∈ l, p.step = s) {x : Option String}
    (hx : x ∈ l.map (fun p => p.step)) : x = s := by
  obtain ⟨p, hp, rfl⟩ := List.mem_map.mp hx
  exact hl p hp

/-- Four product lists tagged with the four distinct stage names, each
with at most one element, concatenate to a list with pairwise distinct
step tags. -/
theorem step_nodup_helper {l1 l2 l3 l4 : List Row}
    (h1 : ∀ p ∈ l1, p.step = some "1. Cleanse")
    (h2 : ∀ p ∈ l2, p.step = some "2. Tone/Exfoliate")
    (h3 : ∀ p ∈ l3, p.step = some "3. Treat")
    (h4 : ∀ p ∈ l4, p.step = some "4. Moisturize")
    (e1 : l1.length ≤ 1) (e2 : l2.length ≤ 1) (e3 : l3.length ≤ 1) (e4 : l4.length ≤ 1) :
    ((l1 ++ l2 ++ l3 ++ l4).map (fun p => p.step)).Nodup := by
  rw [List.map_append, List.map_append, List.map_append]
  have n1 := nodup_of_length_le_one (l := l1.map (fun p => p.step)) (by simpa using e1)
  have n2 := nodup_of_length_le_one (l := l2.map (fun p => p.step)) (by simpa using e2)
  have n3 := nodup_of_length_le_one (l := l3.map (fun p => p.step)) (by simpa using e3)
  have n4 := nodup_of_length_le_one (l := l4.map (fun p => p.step)) (by simpa using e4)
  have d12 : (l1.map (fun p => p.step)).Disjoint (l2.map (fun p => p.step)) := by
    intro x hx1 hx2
    have a1 := map_step_const h1 hx1
    have a2 := map_step_const h2 hx2
    subst a1; simp at a2
  have n12 := List.nodup_append.mpr ⟨n1, n2, d12⟩
  have d123 : ((l1.map (fun p => p.step)) ++ (l2.map (fun p => p.step))).Disjoint
      (l3.map (fun p => p.step)) := by
    intro x hx hx3
    have a3 := map_step_const h3 hx3
    rcases List.mem_append.mp hx with hx1 | hx2
    · have a1 := map_step_const h1 hx1
      subst a1; simp at a3
    · have a2 := map_step_const h2 hx2
      subst a2; simp at a3
  have n123 := List.nodup_append.mpr ⟨n12, n3, d123⟩
  have d1234 : (((l1.map (fun p => p.step)) ++ (l2.map (fun p => p.step))) ++
      (l3.map (fun p => p.step))).Disjoint (l4.map (fun p => p.step)) := by
    intro x hx hx4
    have a4 := map_step_const h4 hx4
    rcases List.mem_append.mp hx with hx' | hx3
    · rcases List.mem_append.mp hx' with hx1 | hx2
      · have a1 := map_step_const h1 hx1
        subst a1; simp at a4
      · have a2 := map_step_const h2 hx2
        subst a2; simp at a4
    · have a3 := map_step_const h3 hx3
      subst a3; simp at a4
  exact List.nodup_append.mpr ⟨n123, n4, d1234⟩

/-- C5: a successful run renders the five fixed stages in order (the
`Routine` fields), the Protect stage always carries the fixed sunscreen
sentence and never a product, and each of the first four stages carries a
product exactly when its step has a candidate (generic advice
otherwise). -/
theorem C5_five_stage_structure (df : List Row) (skin : String) (concerns : List String)
    (sens preg presc : Bool) (area : String) (rng : Rng) (r : Routine)
    (h : buildRoutine df skin concerns sens preg presc area rng = some r) :
    r.protect = protectAdvice ∧
    ((∃ p, r.cleanse = .product p) ↔ cleansersOf (candidates df skin sens preg presc area) ≠ []) ∧
    ((∃ p, r.tone = .product p) ↔ tonersOf (candidates df skin sens preg presc area) ≠ []) ∧
    ((∃ p, r.treat = .product p) ↔ treatsOf (candidates df skin sens preg presc area) ≠ []) ∧
    ((∃ p, r.moisturize = .product p) ↔ moistOf (candidates df skin sens preg presc area) ≠ []) := by
  obtain ⟨-, hr⟩ := buildRoutine_some_iff.mp h
  subst hr
  exact ⟨rfl, cleanseChoice_product_iff _ _, toneChoice_product_iff _ _,
    treatChoice_product_iff _ _ _, moistChoice_product_iff _ _ _⟩

/-- Witness for C5: a concrete run over the one-cleanser catalog. -/
theorem C5_five_stage_structure_witness :
    exRoutine.protect = protectAdvice ∧
    ((∃ p, exRoutine.cleanse = .product p) ↔
      cleansersOf (candidates exDf "Oily" false false false "Face") ≠ []) ∧
    ((∃ p, exRoutine.tone = .product p) ↔
      tonersOf (candidates exDf "Oily" false false false "Face") ≠ []) ∧
    ((∃ p, exRoutine.treat = .product p) ↔
      treatsOf (candidates exDf "Oily" false false false "Face") ≠ []) ∧
    ((∃ p, exRoutine.moisturize = .product p) ↔
      moistOf (candidates exDf "Oily" false false false "Face") ≠ []) :=
  C5_five_stage_structure exDf "Oily" ["dryness"] false false false "Face" exRng exRoutine
    (by decide)

/-- C6: a successful run recommends at most four products, at most one
per product-bearing step (pairwise distinct step tags), and every one of
them is a catalog row that survived the candidate-set filters. -/
theorem C6_shortlist_bounds (df : List Row) (skin : String) (concerns : List String)
    (sens preg presc : Bool) (area : String) (rng : Rng) (r : Routine)
    (h : buildRoutine df skin concerns sens preg presc area rng = some r) :
    r.recommended.length ≤ 4 ∧
    ((r.recommended.map (fun p => p.step)).Nodup) ∧
    (∀ p ∈ r.recommended, p ∈ candidates df skin sens preg presc area) := by
  obtain ⟨-, hr⟩ := buildRoutine_some_iff.mp h
  subst hr
  refine ⟨?_, ?_, ?_⟩
  · show (recommendedOf (candidates df skin sens preg presc area) skin concerns rng).length ≤ 4
    unfold recommendedOf
    rw [List.length_append, List.length_append, List.length_append]
    have a1 := recOf_length_le_one (cleanseChoice (candidates df skin sens preg presc area) rng.r1)
    have a2 := recOf_length_le_one (toneChoice (candidates df skin sens preg presc area) rng.r2)
    have a3 := recOf_length_le_one
      (treatChoice (candidates df skin sens preg presc area) concerns rng.r3)
    have a4 := recOf_length_le_one
      (moistChoice (candidates df skin sens preg presc area) skin rng.r4)
    omega
  · show ((recommendedOf (candidates df skin sens preg presc area) skin concerns rng).map
      (fun p => p.step)).Nodup
    unfold recommendedOf
    exact step_nodup_helper
      (fun p hp => (recOf_cleanse hp).2) (fun p hp => (recOf_tone hp).2)
      (fun p hp => (recOf_treat hp).2) (fun p hp => (recOf_moist hp).2)
      (recOf_length_le_one _) (recOf_length_le_one _)
      (recOf_length_le_one _) (recOf_length_le_one _)
  · intro p hp
    exact recommendedOf_subset hp

/-- Witness for C6: the concrete run over the one-cleanser catalog. -/
theorem C6_shortlist_bounds_witness :
    exRoutine.recommended.length ≤ 4 ∧
    ((exRoutine.recommended.map (fun p => p.step)).Nodup) ∧
    (∀ p ∈ exRoutine.recommended, p ∈ candidates exDf "Oily" false false false "Face") :=
  C6_shortlist_bounds exDf "Oily" ["dryness"] false false false "Face" exRng exRoutine
    (by decide)

/-- C9: when the pipeline is empty after the skin-type filter and the
user is sensitive, the candidate set is recomputed from the ENTIRE
original catalog as the rows with `safe_for_sensitive == 'Yes'` whose
`suitable_skin_types` contains "All" — the area filter and the
`is_safe` pregnancy/prescription checks are not re-applied. -/
theorem C9_sensitive_relaxation (df : List Row) (skin : String) (sens preg presc : Bool)
    (area : String)
    (hbase : baseCandidates df skin sens preg presc area = [])
    (hsens : sens = true) :
    candidates df skin sens preg presc area =
      df.filter (fun r => r.safe_for_sensitive == some "Yes" &&
        containsNaTrue r.suitable_skin_types "All") := by
  unfold candidates
  rw [hbase, hsens]
  simp [relaxFilter]

/-- Witness for C9: the fallback resurrects a body wash that the Face
area filter had excluded. -/
theorem C9_sensitive_relaxation_witness :
    candidates bodyDf "Oily" true false false "Face" =
      bodyDf.filter (fun r => r.safe_for_sensitive == some "Yes" &&
        containsNaTrue r.suitable_skin_types "All") :=
  C9_sensitive_relaxation bodyDf "Oily" true false false "Face" (by decide) rfl

/-- C10: when an acid-free candidate toner exists the Tone product is
drawn from the acid-free subset; only when every candidate toner contains
acid is it drawn from the full toner set. -/
theorem C10_toner_acid_preference (df : List Row) (skin : String) (concerns : List String)
    (sens preg presc : Bool) (area : String) (rng : Rng) (r : Routine)
    (h : buildRoutine df skin concerns sens preg presc area rng = some r) :
    (gentleOf (candidates df skin sens preg presc area) ≠ [] →
      ∃ c, r.tone = .product c ∧ c ∈ gentleOf (candidates df skin sens preg presc area)) ∧
    (gentleOf (candidates df skin sens preg presc area) = [] →
      tonersOf (candidates df skin sens preg presc area) ≠ [] →
      ∃ c, r.tone = .product c ∧ c ∈ tonersOf (candidates df skin sens preg presc area)) := by
  obtain ⟨-, hr⟩ := buildRoutine_some_iff.mp h
  subst hr
  constructor
  · intro hg
    have hpool : tonePoolOf (candidates df skin sens preg presc area) =
        gentleOf (candidates df skin sens preg presc area) := by
      unfold tonePoolOf
      rw [if_neg (by simp [hg])]
    show ∃ c, toneChoice (candidates df skin sens preg presc area) rng.r2 = .product c ∧
      c ∈ gentleOf (candidates df skin sens preg presc area)
    unfold toneChoice
    rw [hpool]
    obtain ⟨x, hx, hxm⟩ := pick_of_ne_nil hg rng.r2
    rw [hx]
    exact ⟨x, rfl, hxm⟩
  · intro hg ht
    have hpool : tonePoolOf (candidates df skin sens preg presc area) =
        tonersOf (candidates df skin sens preg presc area) := by
      unfold tonePoolOf
      rw [if_pos (by simp [hg])]
    show ∃ c, toneChoice (candidates df skin sens preg presc area) rng.r2 = .product c ∧
      c ∈ tonersOf (candidates df skin sens preg presc area)
    unfold toneChoice
    rw [hpool]
    obtain ⟨x, hx, hxm⟩ := pick_of_ne_nil ht rng.r2
    rw [hx]
    exact ⟨x, rfl, hxm⟩

/-- Witness for C10: with one acid toner and one acid-free toner, the
acid-free one is chosen. -/
theorem C10_toner_acid_preference_witness :
    gentleOf (candidates tonerDf "Normal" false false false "Both") = [tGentle] ∧
    ((gentleOf (candidates tonerDf "Normal" false false false "Both") ≠ [] →
      ∃ c, tonerRoutine.tone = .product c ∧
        c ∈ gentleOf (candidates tonerDf "Normal" false false false "Both")) ∧
    (gentleOf (candidates tonerDf "Normal" false false false "Both") = [] →
      tonersOf (candidates tonerDf "Normal" false false false "Both") ≠ [] →
      ∃ c, tonerRoutine.tone = .product c ∧
        c ∈ tonersOf (candidates tonerDf "Normal" false false false "Both"))) :=
  ⟨by decide,
   C10_toner_acid_preference tonerDf "Normal" [] false false false "Both" exRng tonerRoutine
     (by decide)⟩

/-- C1 counterexample: on a one-product catalog with the `dryness`
concern selected, the code's candidate set keeps the product although the
spec's four-filter pipeline (with the concern-keyword matching filter)
rejects it — the candidate set is NOT computed with a concern-keyword
filter. -/
theorem C1_counterexample :
    candidates exDf "Oily" false false false "Face" = [exR] ∧
    candidatesSpec exDf "Oily" ["dryness"] false false false "Face" = [] ∧
    candidates exDf "Oily" false false false "Face" ≠
      candidatesSpec exDf "Oily" ["dryness"] false false false "Face" :=
  ⟨by decide, by decide, by decide⟩

/-- C1 amended: the candidate set is the area, safety and skin-type
filters in order (with the sensitive fallback) and no concern filter; the
selection per step stays inside the candidate set; the product grid is
the de-duplication of the selected products. -/
theorem C1_pipeline_structure (df : List Row) (skin : String) (concerns : List String)
    (sens preg presc : Bool) (area : String) (rng : Rng) (r : Routine)
    (h : buildRoutine df skin concerns sens preg presc area rng = some r) :
    candidates df skin sens preg presc area =
      (if (skinTypeFilter skin ((areaFilter area df).filter
            (fun x => is_safe x sens preg presc))).isEmpty && sens then
        relaxFilter df
      else
        skinTypeFilter skin ((areaFilter area df).filter (fun x => is_safe x sens preg presc))) ∧
    (∀ p ∈ r.recommended, p ∈ candidates df skin sens preg presc area) ∧
    r.unique = removeDuplicates r.recommended := by
  obtain ⟨-, hr⟩ := buildRoutine_some_iff.mp h
  subst hr
  exact ⟨rfl, fun p hp => recommendedOf_subset hp, rfl⟩

/-- Witness for the amended C1 on the concrete one-cleanser run. -/
theorem C1_pipeline_structure_witness :
    candidates exDf "Oily" false false false "Face" =
      (if (skinTypeFilter "Oily" ((areaFilter "Face" exDf).filter
            (fun x => is_safe x false false false))).isEmpty && false then
        relaxFilter exDf
      else
        skinTypeFilter "Oily" ((areaFilter "Face" exDf).filter
          (fun x => is_safe x false false false))) ∧
    (∀ p ∈ exRoutine.recommended, p ∈ candidates exDf "Oily" false false false "Face") ∧
    exRoutine.unique = removeDuplicates exRoutine.recommended :=
  C1_pipeline_structure exDf "Oily" ["dryness"] false false false "Face" exRng exRoutine
    (by decide)

/-- C2 counterexample: the `dryness` concern maps to the keyword set
`["dryness", "dehydrated", "tight"]`, yet `build_routine` recommends a
product none of whose metadata fields contains any of these keywords —
the keyword set is not used when selecting products. -/
theorem C2_counterexample :
    CONCERN_MAPPING.find? (fun p => p.1 == "dryness") =
      some ("dryness", ["dryness", "dehydrated", "tight"]) ∧
    (buildRoutine exDf "Oily" ["dryness"] false false false "Face" exRng).map
        Routine.recommended = some [exR] ∧
    concernKeywordMatches exR "dryness" = false :=
  ⟨by decide, by decide, by decide⟩

/-- C2 amended: `build_routine`'s output depends on the selected concerns
only through membership of the two literals "dark spots / uneven tone"
and "acne" (which drive hard-coded `key_actives` matching in the Treat
step); the `CONCERN_MAPPING` keyword sets play no role in selection. -/
theorem C2_keywords_not_used (df : List Row) (skin : String)
    (concerns₁ concerns₂ : List String) (sens preg presc : Bool) (area : String) (rng : Rng)
    (h1 : concerns₁.contains "dark spots / uneven tone" =
          concerns₂.contains "dark spots / uneven tone")
    (h2 : concerns₁.contains "acne" = concerns₂.contains "acne") :
    buildRoutine df skin concerns₁ sens preg presc area rng =
      buildRoutine df skin concerns₂ sens preg presc area rng := by
  have ht : ∀ f n, treatChoice f concerns₁ n = treatChoice f concerns₂ n := by
    intro f n
    unfold treatChoice treatPoolOf
    rw [h1, h2]
  simp only [buildRoutine, recommendedOf, ht]

/-- Witness for the amended C2: dropping the `dryness` concern entirely
changes nothing. -/
theorem C2_keywords_not_used_witness :
    buildRoutine exDf "Oily" ["dryness"] false false false "Face" exRng =
      buildRoutine exDf "Oily" [] false false false "Face" exRng :=
  C2_keywords_not_used exDf "Oily" ["dryness"] [] false false false "Face" exRng
    (by decide) (by decide)

end Skincare
